import Mathlib

/-!
Verification of the SimilarityScoreAnalyzer repository (src/utils.py, src/main.py).

The repository computes a per-row semantic similarity score between two
columns of an uploaded spreadsheet.  The core of `src/utils.py` is:

* `calculate_similarity(str1, str2)` — missing-value handling, `str(...).strip()`
  coercion, blank handling, then an embedding-based cosine similarity rescaled
  by `(cosine + 1) / 2`, with any exception caught and degraded to `0.0`.
* `process_excel_file(df, col1, col2)` — row-wise application over two columns,
  appending the scores as column `"Similarity_Score"`.
* `get_summary_stats(scores)` — mean / median / min / max formatted with
  Python's `f"{x:.2%}"`.
* `validate_file_upload(uploaded_file)` — extension-based validation.

Modelling choices:

* A spreadsheet scalar cell is `Cell`: a missing/null marker (`pd.isna` true),
  a string, or a number.  `str(...)` is `pyStr`, `.strip()` is `pyStrip`
  (Python strips Unicode whitespace; we model the ASCII whitespace relevant
  here, matching `Char.isWhitespace`).
* The pretrained sentence-embedding model together with
  `util.pytorch_cos_sim` is external third-party code, not part of this
  repository; it is modelled as a parameter
  `eng : String → String → Except String ℚ`, where `Except.error e` models an
  exception raised during encoding or cosine computation with message `e`,
  and `Except.ok c` models a successfully computed cosine similarity `c`.
  Scores are idealized as rationals.
* `st.error(msg)` is modelled by recording `msg` in the `errors` field of the
  result, so "the failure is surfaced for display, not raised" is expressible.
-/

/-- A scalar cell value of the dataframe: missing/null marker (`pd.isna` holds),
a string, or a numeric value. -/
inductive Cell where
  | na : Cell
  | str (s : String) : Cell
  | num (q : ℚ) : Cell
deriving DecidableEq, Repr

/-- `pd.isna` on a scalar cell. -/
def pyIsNA : Cell → Bool
  | Cell.na => true
  | _ => false

/-- Python `str(...)` on a cell.  On strings it is the identity; numeric
formatting details are a modelling placeholder never relied on by any claim
(`str` is only ever applied after the `pd.isna` check, so the `na` case is
unreachable in the code and mapped to `""`). -/
def pyStr : Cell → String
  | Cell.na => ""
  | Cell.str s => s
  | Cell.num q => toString q

/-- Python `str.strip()`: drop leading and trailing whitespace. -/
def pyStrip (s : String) : String :=
  String.mk (((s.toList.dropWhile Char.isWhitespace).reverse.dropWhile
    Char.isWhitespace).reverse)

/-- Result of one call of `calculate_similarity`: the returned score together
with the messages passed to `st.error` during the call. -/
structure SimResult where
  score : ℚ
  errors : List String
deriving DecidableEq, Repr

/-- `calculate_similarity(str1, str2)` from `src/utils.py` lines 34–69,
with the surfaced `st.error` messages made explicit.  `eng` models the
external embedding model plus cosine computation (see the module docstring). -/
def calculate_similarity_full (eng : String → String → Except String ℚ)
    (c1 c2 : Cell) : SimResult :=
  -- `if pd.isna(str1) or pd.isna(str2): return 0.0`
  if pyIsNA c1 || pyIsNA c2 then ⟨0, []⟩
  else
    -- `str1 = str(str1).strip()` / `str2 = str(str2).strip()`
    let t1 := pyStrip (pyStr c1)
    let t2 := pyStrip (pyStr c2)
    -- `if not str1 and not str2: return 1.0`
    if t1 = "" ∧ t2 = "" then ⟨1, []⟩
    -- `if not str1 or not str2: return 0.0`
    else if t1 = "" ∨ t2 = "" then ⟨0, []⟩
    else
      match eng t1 t2 with
      -- `normalized_similarity = (similarity + 1) / 2; return float(...)`
      | Except.ok c => ⟨(c + 1) / 2, []⟩
      -- `except Exception as e: st.error(f"Error calculating similarity: {str(e)}"); return 0.0`
      | Except.error e => ⟨0, ["Error calculating similarity: " ++ e]⟩

/-- The score returned by `calculate_similarity`. -/
def calculate_similarity (eng : String → String → Except String ℚ)
    (c1 c2 : Cell) : ℚ :=
  (calculate_similarity_full eng c1 c2).score

/-! ### Identity of the cosine engine (claim C9)

`util.pytorch_cos_sim(e1, e2)` is the cosine of the two embedding vectors:
`dot(e1, e2) / (‖e1‖ * ‖e2‖)`.  We expose the dot product on (idealized
rational) embedding vectors and relate the abstract engine to an encoder
through that formula, so that `cos(v, v) = 1` for a nonzero embedding is
proved rather than assumed. -/

/-- Dot product of two embedding vectors (componentwise, like
`torch.dot` / the numerator of cosine similarity). -/
def dotQ : List ℚ → List ℚ → ℚ
  | x :: xs, y :: ys => x * y + dotQ xs ys
  | _, _ => 0

/-! ### The dataframe model and `process_excel_file`

A `pd.DataFrame` is modelled by its columns in order: an association list
from column name to the list of that column's cell values (rows in order).
`df[c]` reads a column, `df[c] = vals` replaces an existing column in place
or appends a new last column (pandas semantics).  `Rectangular df n` is the
dataframe invariant that every column has the common row count `n`. -/

/-- A dataframe: columns in order, each a name with its cell values. -/
abbrev DataFrame := List (String × List Cell)

/-- `df[c]`: the values of column `c` (claims only use it on present columns;
a missing column — a `KeyError` in pandas — is mapped to `[]`). -/
def getCol (df : DataFrame) (c : String) : List Cell :=
  (df.lookup c).getD []

/-- `df[c] = vals`: replace the (first, and in pandas unique) column named `c`
in place, keeping its position; if no such column exists, append it as the
last column — pandas' column-assignment semantics. -/
def setCol : DataFrame → String → List Cell → DataFrame
  | [], c, vals => [(c, vals)]
  | (k, v) :: t, c, vals =>
    if k = c then (k, vals) :: t else (k, v) :: setCol t c vals

/-- Every column of `df` has exactly `n` rows. -/
def Rectangular (df : DataFrame) (n : Nat) : Prop :=
  ∀ p ∈ df, (p.2 : List Cell).length = n

/-- `process_excel_file(df, col1, col2, new_col_name)` from `src/utils.py`
lines 71–89: score `zip(df[col1], df[col2])` row by row with
`calculate_similarity`, store the scores as column `new_col_name`
(the call sites use the default `"Similarity_Score"`), and return the
mutated dataframe together with the raw score list. -/
def process_excel_file (eng : String → String → Except String ℚ)
    (df : DataFrame) (col1 col2 : String) (new_col_name : String) :
    DataFrame × List ℚ :=
  let similarity_scores :=
    ((getCol df col1).zip (getCol df col2)).map
      (fun p => calculate_similarity eng p.1 p.2)
  (setCol df new_col_name (similarity_scores.map Cell.num), similarity_scores)

/-! ### Summary statistics (`get_summary_stats`)

`np.mean`, `np.median`, `np.min`, `np.max` over the (idealized rational)
score list, and Python's `f"{x:.2%}"` formatting: multiply by 100, render
with exactly two fractional digits (ties rounded half-to-even, as Python
format does), and append `"%"`. -/

/-- Insert into a sorted list (ascending). -/
def insertSorted (x : ℚ) : List ℚ → List ℚ
  | [] => [x]
  | y :: ys => if x ≤ y then x :: y :: ys else y :: insertSorted x ys

/-- Sort ascending (the sort `np.median` performs internally). -/
def sortQ (xs : List ℚ) : List ℚ :=
  xs.foldr insertSorted []

/-- `np.mean`: arithmetic mean (claims only use it on non-empty input;
`np.mean([])` is a NaN warning in numpy and is mapped to `0`). -/
def npMean (xs : List ℚ) : ℚ :=
  xs.sum / (xs.length : ℚ)

/-- `np.median`: middle element of the sorted list for odd length, mean of
the two middle elements for even length. -/
def npMedian (xs : List ℚ) : ℚ :=
  let s := sortQ xs
  let n := xs.length
  if n % 2 = 1 then s.getD (n / 2) 0
  else (s.getD (n / 2 - 1) 0 + s.getD (n / 2) 0) / 2

/-- `np.min` (claims only use it on non-empty input; `np.min([])` raises in
numpy and is mapped to `0`). -/
def npMin : List ℚ → ℚ
  | [] => 0
  | x :: xs => xs.foldl min x

/-- `np.max` (claims only use it on non-empty input). -/
def npMax : List ℚ → ℚ
  | [] => 0
  | x :: xs => xs.foldl max x

/-- Round to the nearest integer, ties to the even integer — the rounding of
Python's fixed-precision float formatting. -/
def rhe (q : ℚ) : ℤ :=
  let f := ⌊q⌋
  let r := q - (f : ℚ)
  if r < 1/2 then f
  else if 1/2 < r then f + 1
  else if f % 2 = 0 then f else f + 1

/-- Render `k < 100` as exactly two digits. -/
def twoDigits (k : Nat) : String :=
  (if k < 10 then "0" else "") ++ toString k

/-- Python `f"{q:.2%}"`: the value times 100, with exactly two fractional
digits, followed by `%`. -/
def format2pct (q : ℚ) : String :=
  let n : ℤ := rhe (q * 10000)
  let sign : String := if n < 0 then "-" else ""
  let m : Nat := n.natAbs
  sign ++ toString (m / 100) ++ "." ++ twoDigits (m % 100) ++ "%"

/-- `get_summary_stats(scores)` from `src/utils.py` lines 91–100: the four
labelled statistics, each formatted as a percentage, in the dict's insertion
order. -/
def get_summary_stats (scores : List ℚ) : List (String × String) :=
  [("Average Similarity", format2pct (npMean scores)),
   ("Median Similarity", format2pct (npMedian scores)),
   ("Min Similarity", format2pct (npMin scores)),
   ("Max Similarity", format2pct (npMax scores))]

/-! ### Upload validation (`validate_file_upload`) -/

/-- The uploaded file object: the claims only touch its `name` attribute. -/
structure UploadedFile where
  name : String
deriving DecidableEq, Repr

/-- Python `s.endswith(suf)`. -/
def pyEndsWith (s suf : String) : Bool :=
  suf.toList.isSuffixOf s.toList

/-- `validate_file_upload(uploaded_file)` from `src/utils.py` lines 102–112:
`None` (no file) and names not ending in `.xlsx` or `.xls` are rejected with
a message, everything else is accepted.  `endswith(('.xlsx', '.xls'))` is
the disjunction of the two suffix tests. -/
def validate_file_upload : Option UploadedFile → Bool × String
  | none => (false, "Please upload an Excel file")
  | some f =>
    if !(pyEndsWith f.name ".xlsx" || pyEndsWith f.name ".xls") then
      (false, "Please upload a valid Excel file (.xlsx or .xls)")
    else
      (true, "File validated successfully")

/-! ### Claims about `calculate_similarity` -/

/-- C1: For every pair of input cell values and every engine whose successful
results are cosine similarities in `[-1, 1]`, the score returned by
`calculate_similarity` lies in `[0, 1]`: every return path (missing-value
branches, empty-string branches, the rescale `(cosine + 1) / 2`, and the
exception branch) yields a value that is at least `0` and at most `1`. -/
theorem calculate_similarity_bounds (eng : String → String → Except String ℚ)
    (hcos : ∀ s t c, eng s t = Except.ok c → -1 ≤ c ∧ c ≤ 1) (c1 c2 : Cell) :
    0 ≤ calculate_similarity eng c1 c2 ∧ calculate_similarity eng c1 c2 ≤ 1 := by
  unfold calculate_similarity calculate_similarity_full
  split
  · norm_num
  · dsimp only
    split
    · norm_num
    · split
      · norm_num
      · cases heng : eng (pyStrip (pyStr c1)) (pyStrip (pyStr c2)) with
        | ok c =>
          obtain ⟨hlo, hhi⟩ := hcos _ _ _ heng
          simp only [heng]
          constructor <;> [linarith; linarith]
        | error e => simp only [heng]; norm_num

/-- Witness for C1 at a concrete engine and concrete cells. -/
theorem calculate_similarity_bounds_witness :
    0 ≤ calculate_similarity (fun _ _ => Except.ok (1/2)) (Cell.str "x") Cell.na ∧
      calculate_similarity (fun _ _ => Except.ok (1/2)) (Cell.str "x") Cell.na ≤ 1 :=
  calculate_similarity_bounds (fun _ _ => Except.ok (1/2))
    (by intro s t c h; simp only [Except.ok.injEq] at h; subst h; norm_num)
    (Cell.str "x") Cell.na

/-- C2: if exactly one of the two values is missing (`pd.isna` holds for one
and not the other), `calculate_similarity` returns `0.0`, for every engine and
without surfacing any error — in particular the result does not depend on the
engine, so no encoding is attempted. -/
theorem calculate_similarity_one_missing
    (eng : String → String → Except String ℚ) (c1 c2 : Cell)
    (h : pyIsNA c1 ≠ pyIsNA c2) :
    calculate_similarity_full eng c1 c2 = ⟨0, []⟩ := by
  unfold calculate_similarity_full
  have hor : (pyIsNA c1 || pyIsNA c2) = true := by
    cases hb1 : pyIsNA c1 <;> cases hb2 : pyIsNA c2 <;> simp_all
  simp [hor]

/-- Witness for C2 at a concrete engine (one that always fails) and cells. -/
theorem calculate_similarity_one_missing_witness :
    calculate_similarity_full (fun _ _ => Except.error "boom")
      Cell.na (Cell.str "x") = ⟨0, []⟩ :=
  calculate_similarity_one_missing (fun _ _ => Except.error "boom")
    Cell.na (Cell.str "x") (by decide)

/-- C3: for every pair of non-missing inputs that are non-empty after
`str(...).strip()`, if the engine raises an exception (modelled by
`Except.error e`), `calculate_similarity` catches it rather than propagating
it — it still returns a `SimResult` — surfaces the error message
`"Error calculating similarity: " ++ e` for display, and returns score `0.0`. -/
theorem calculate_similarity_catches
    (eng : String → String → Except String ℚ) (c1 c2 : Cell) (e : String)
    (h1 : pyIsNA c1 = false) (h2 : pyIsNA c2 = false)
    (hne1 : pyStrip (pyStr c1) ≠ "") (hne2 : pyStrip (pyStr c2) ≠ "")
    (herr : eng (pyStrip (pyStr c1)) (pyStrip (pyStr c2)) = Except.error e) :
    calculate_similarity_full eng c1 c2
      = ⟨0, ["Error calculating similarity: " ++ e]⟩ := by
  unfold calculate_similarity_full
  simp [h1, h2, hne1, hne2, herr]

/-- Witness for C3 at a concrete always-failing engine and concrete cells. -/
theorem calculate_similarity_catches_witness :
    calculate_similarity_full (fun _ _ => Except.error "boom")
      (Cell.str "a") (Cell.str "b")
      = ⟨0, ["Error calculating similarity: boom"]⟩ :=
  calculate_similarity_catches (fun _ _ => Except.error "boom")
    (Cell.str "a") (Cell.str "b") "boom" (by decide) (by decide)
    (by decide) (by decide) rfl

/-- C10: for every engine, a pair of non-missing inputs that are both empty
after `str(...).strip()` scores `1.0`, while a pair in which both values are
missing scores `0.0`: the both-blank policy distinguishes null markers from
whitespace-only/empty strings. -/
theorem calculate_similarity_blank_vs_missing
    (eng : String → String → Except String ℚ) (c1 c2 : Cell)
    (h1 : pyIsNA c1 = false) (h2 : pyIsNA c2 = false)
    (ht1 : pyStrip (pyStr c1) = "") (ht2 : pyStrip (pyStr c2) = "") :
    calculate_similarity eng c1 c2 = 1 ∧
      calculate_similarity eng Cell.na Cell.na = 0 := by
  constructor
  · unfold calculate_similarity calculate_similarity_full
    simp [h1, h2, ht1, ht2]
  · unfold calculate_similarity calculate_similarity_full
    simp [pyIsNA]

/-- Witness for C10: whitespace-only strings score `1`, two nulls score `0`,
even under an engine that always fails. -/
theorem calculate_similarity_blank_vs_missing_witness :
    calculate_similarity (fun _ _ => Except.error "boom")
        (Cell.str "  ") (Cell.str "") = 1 ∧
      calculate_similarity (fun _ _ => Except.error "boom")
        Cell.na Cell.na = 0 :=
  calculate_similarity_blank_vs_missing (fun _ _ => Except.error "boom")
    (Cell.str "  ") (Cell.str "") (by decide) (by decide) (by decide) (by decide)

theorem dotQ_self_nonneg (v : List ℚ) : 0 ≤ dotQ v v := by
  induction v with
  | nil => simp [dotQ]
  | cons x xs ih =>
    have hx : 0 ≤ x * x := mul_self_nonneg x
    simp only [dotQ]
    linarith

/-- C9: for every non-missing input whose stripped form is non-empty,
`calculate_similarity(x, x) = 1.0`: both arguments are stripped to the same
string, hence encoded (by the deterministic encoder `enc`) to the same
embedding vector `v`; if the engine's answer on that pair is the cosine
`dot(v,v) / (‖v‖ * ‖v‖)` of `v` with itself and `v` is not the zero vector,
the cosine is `1` and the rescale `(1 + 1) / 2` yields `1.0`. -/
theorem calculate_similarity_self
    (eng : String → String → Except String ℚ) (enc : String → List ℚ)
    (c : Cell) (q : ℚ)
    (hna : pyIsNA c = false) (ht : pyStrip (pyStr c) ≠ "")
    (heng : eng (pyStrip (pyStr c)) (pyStrip (pyStr c)) = Except.ok q)
    (hnz : dotQ (enc (pyStrip (pyStr c))) (enc (pyStrip (pyStr c))) ≠ 0)
    (hcos : (q : ℝ) =
      ((dotQ (enc (pyStrip (pyStr c))) (enc (pyStrip (pyStr c))) : ℚ) : ℝ)
        / (Real.sqrt ((dotQ (enc (pyStrip (pyStr c))) (enc (pyStrip (pyStr c))) : ℚ))
           * Real.sqrt ((dotQ (enc (pyStrip (pyStr c))) (enc (pyStrip (pyStr c))) : ℚ)))) :
    calculate_similarity eng c c = 1 := by
  set v := enc (pyStrip (pyStr c)) with hv
  have hd0 : (0 : ℝ) ≤ ((dotQ v v : ℚ) : ℝ) := by
    exact_mod_cast dotQ_self_nonneg v
  have hsq : Real.sqrt ((dotQ v v : ℚ)) * Real.sqrt ((dotQ v v : ℚ))
      = ((dotQ v v : ℚ) : ℝ) := Real.mul_self_sqrt hd0
  have hdz : ((dotQ v v : ℚ) : ℝ) ≠ 0 := by exact_mod_cast hnz
  have hq1 : (q : ℝ) = 1 := by
    rw [hcos, hsq, div_self hdz]
  have hq : q = 1 := by exact_mod_cast hq1
  subst hq
  unfold calculate_similarity calculate_similarity_full
  simp [hna, ht, heng]

/-- Witness for C9 at a concrete encoder (`enc x = [1]`) and the matching
cosine engine (constantly the cosine `1`). -/
theorem calculate_similarity_self_witness :
    calculate_similarity (fun _ _ => Except.ok 1) (Cell.str "x") (Cell.str "x")
      = 1 :=
  calculate_similarity_self (fun _ _ => Except.ok 1) (fun _ => [1])
    (Cell.str "x") 1 (by decide) (by decide) rfl (by norm_num [dotQ])
    (by
      have h1 : ((dotQ [(1 : ℚ)] [(1 : ℚ)] : ℚ) : ℝ) = 1 := by
        norm_num [dotQ]
      simp only [h1]
      norm_num [Real.sqrt_one])

theorem lookup_eq_some_mem {df : DataFrame} {c : String} {l : List Cell}
    (h : df.lookup c = some l) : (c, l) ∈ df := by
  induction df with
  | nil => simp [List.lookup] at h
  | cons p t ih =>
    obtain ⟨k, v⟩ := p
    by_cases hk : c = k
    · subst hk
      simp [List.lookup] at h
      simp [h]
    · have hk' : (c == k) = false := by simp [hk]
      simp [List.lookup, hk'] at h
      exact List.mem_cons_of_mem _ (ih h)

theorem zip_map_getD (f : Cell → Cell → ℚ) (l1 l2 : List Cell) (i : Nat)
    (h1 : i < l1.length) (h2 : i < l2.length) :
    ((l1.zip l2).map (fun p => f p.1 p.2)).getD i 0
      = f (l1.getD i Cell.na) (l2.getD i Cell.na) := by
  induction l1 generalizing l2 i with
  | nil => simp at h1
  | cons x xs ih =>
    cases l2 with
    | nil => simp at h2
    | cons y ys =>
      cases i with
      | zero => simp
      | succ j =>
        simp only [List.zip_cons_cons, List.map_cons, List.getD_cons_succ]
        exact ih ys j (by simpa using h1) (by simpa using h2)

theorem lookup_setCol_self (df : DataFrame) (c : String) (vals : List Cell) :
    (setCol df c vals).lookup c = some vals := by
  induction df with
  | nil => simp [setCol, List.lookup]
  | cons p t ih =>
    obtain ⟨k, v⟩ := p
    by_cases hk : k = c
    · subst hk
      simp [setCol, List.lookup]
    · have hk' : (c == k) = false := by simp [Ne.symm hk]
      simp [setCol, hk, List.lookup, hk', ih]

theorem lookup_setCol_ne (df : DataFrame) (c c' : String) (vals : List Cell)
    (h : c' ≠ c) : (setCol df c vals).lookup c' = df.lookup c' := by
  induction df with
  | nil =>
    have hk' : (c' == c) = false := by simp [h]
    simp [setCol, List.lookup, hk']
  | cons p t ih =>
    obtain ⟨k, v⟩ := p
    by_cases hk : k = c
    · subst hk
      have hk' : (c' == k) = false := by simp [h]
      simp [setCol, List.lookup, hk']
    · by_cases hck : c' = k
      · subst hck
        simp [setCol, hk, List.lookup]
      · have hk' : (c' == k) = false := by simp [hck]
        simp [setCol, hk, List.lookup, hk', ih]

theorem setCol_rectangular (df : DataFrame) (c : String) (vals : List Cell)
    (n : Nat) (hrect : Rectangular df n) (hlen : vals.length = n) :
    Rectangular (setCol df c vals) n := by
  induction df with
  | nil =>
    intro p hp
    simp [setCol] at hp
    rw [hp]
    exact hlen
  | cons q t ih =>
    obtain ⟨k, v⟩ := q
    by_cases hk : k = c
    · subst hk
      intro p hp
      simp only [setCol, if_pos rfl] at hp
      rcases List.mem_cons.mp hp with rfl | hp
      · exact hlen
      · exact hrect p (List.mem_cons_of_mem _ hp)
    · intro p hp
      simp only [setCol, if_neg hk] at hp
      rcases List.mem_cons.mp hp with rfl | hp
      · exact hrect (k, v) (List.mem_cons_self _ _)
      · exact ih (fun r hr => hrect r (List.mem_cons_of_mem _ hr)) p hp

/-! ### Claims about `process_excel_file` -/

/-- C4: for every dataframe and pair of column names present in it, the score
list returned by `process_excel_file` has length equal to the row count, its
`i`-th element is the engine applied to the `i`-th row's values in the two
selected columns (row order), and every column of the returned dataframe
still has the input row count. -/
theorem process_excel_file_rowwise (eng : String → String → Except String ℚ)
    (df : DataFrame) (col1 col2 : String) (l1 l2 : List Cell) (n : Nat)
    (h1 : df.lookup col1 = some l1) (h2 : df.lookup col2 = some l2)
    (hrect : Rectangular df n) :
    (process_excel_file eng df col1 col2 "Similarity_Score").2.length = n ∧
    (∀ i, i < n →
      (process_excel_file eng df col1 col2 "Similarity_Score").2.getD i 0
        = calculate_similarity eng (l1.getD i Cell.na) (l2.getD i Cell.na)) ∧
    Rectangular (process_excel_file eng df col1 col2 "Similarity_Score").1 n := by
  have hl1 : l1.length = n := hrect _ (lookup_eq_some_mem h1)
  have hl2 : l2.length = n := hrect _ (lookup_eq_some_mem h2)
  have hg1 : getCol df col1 = l1 := by simp [getCol, h1]
  have hg2 : getCol df col2 = l2 := by simp [getCol, h2]
  have hlen : (process_excel_file eng df col1 col2 "Similarity_Score").2.length = n := by
    simp [process_excel_file, hg1, hg2, hl1, hl2]
  refine ⟨hlen, ?_, ?_⟩
  · intro i hi
    simp only [process_excel_file, hg1, hg2]
    exact zip_map_getD _ l1 l2 i (by rw [hl1]; exact hi) (by rw [hl2]; exact hi)
  · apply setCol_rectangular _ _ _ _ hrect
    simpa [process_excel_file] using hlen

/-- Witness for C4 at a one-row dataframe and an always-failing engine. -/
theorem process_excel_file_rowwise_witness :
    (process_excel_file (fun _ _ => Except.error "boom")
        [("A", [Cell.str "a"]), ("B", [Cell.na])] "A" "B"
        "Similarity_Score").2.length = 1 ∧
    (∀ i, i < 1 →
      (process_excel_file (fun _ _ => Except.error "boom")
        [("A", [Cell.str "a"]), ("B", [Cell.na])] "A" "B"
        "Similarity_Score").2.getD i 0
        = calculate_similarity (fun _ _ => Except.error "boom")
            ([Cell.str "a"].getD i Cell.na) ([Cell.na].getD i Cell.na)) ∧
    Rectangular (process_excel_file (fun _ _ => Except.error "boom")
        [("A", [Cell.str "a"]), ("B", [Cell.na])] "A" "B"
        "Similarity_Score").1 1 :=
  process_excel_file_rowwise (fun _ _ => Except.error "boom")
    [("A", [Cell.str "a"]), ("B", [Cell.na])] "A" "B"
    [Cell.str "a"] [Cell.na] 1 (by decide) (by decide)
    (by simp [Rectangular])

/-- C5: `process_excel_file` stores the computed scores as the column named
`"Similarity_Score"` of the returned dataframe — its values are exactly the
returned score list, element-wise, whether or not a column of that name
already existed (overwriting it if so) — and leaves every other column
unchanged. -/
theorem process_excel_file_score_column (eng : String → String → Except String ℚ)
    (df : DataFrame) (col1 col2 : String) :
    getCol (process_excel_file eng df col1 col2 "Similarity_Score").1
        "Similarity_Score"
      = (process_excel_file eng df col1 col2 "Similarity_Score").2.map Cell.num ∧
    ∀ c, c ≠ "Similarity_Score" →
      getCol (process_excel_file eng df col1 col2 "Similarity_Score").1 c
        = getCol df c := by
  constructor
  · simp [process_excel_file, getCol, lookup_setCol_self]
  · intro c hc
    simp [process_excel_file, getCol, lookup_setCol_ne _ _ _ _ hc]

/-- Witness for C5 at a dataframe that already has a `"Similarity_Score"`
column (so the overwrite case is exercised) and an untouched second column. -/
theorem process_excel_file_score_column_witness :
    getCol (process_excel_file (fun _ _ => Except.ok 0)
        [("Similarity_Score", [Cell.na]), ("B", [Cell.str "x"])] "B" "B"
        "Similarity_Score").1 "Similarity_Score"
      = (process_excel_file (fun _ _ => Except.ok 0)
          [("Similarity_Score", [Cell.na]), ("B", [Cell.str "x"])] "B" "B"
          "Similarity_Score").2.map Cell.num ∧
    getCol (process_excel_file (fun _ _ => Except.ok 0)
        [("Similarity_Score", [Cell.na]), ("B", [Cell.str "x"])] "B" "B"
        "Similarity_Score").1 "B"
      = getCol [("Similarity_Score", [Cell.na]), ("B", [Cell.str "x"])] "B" :=
  ⟨(process_excel_file_score_column (fun _ _ => Except.ok 0)
      [("Similarity_Score", [Cell.na]), ("B", [Cell.str "x"])] "B" "B").1,
   (process_excel_file_score_column (fun _ _ => Except.ok 0)
      [("Similarity_Score", [Cell.na]), ("B", [Cell.str "x"])] "B" "B").2
     "B" (by decide)⟩

/-- C6: on a dataframe with zero rows (and both column names present),
`process_excel_file` — a total function, so no error is raised — returns an
empty score list, and every column of the returned dataframe still has zero
rows. -/
theorem process_excel_file_empty (eng : String → String → Except String ℚ)
    (df : DataFrame) (col1 col2 : String) (l1 l2 : List Cell)
    (h1 : df.lookup col1 = some l1) (h2 : df.lookup col2 = some l2)
    (hrect : Rectangular df 0) :
    (process_excel_file eng df col1 col2 "Similarity_Score").2 = [] ∧
    Rectangular (process_excel_file eng df col1 col2 "Similarity_Score").1 0 := by
  obtain ⟨hlen, _, hr⟩ :=
    process_excel_file_rowwise eng df col1 col2 l1 l2 0 h1 h2 hrect
  exact ⟨List.eq_nil_of_length_eq_zero hlen, hr⟩

/-- Witness for C6 at a concrete zero-row dataframe with two columns. -/
theorem process_excel_file_empty_witness :
    (process_excel_file (fun _ _ => Except.error "boom")
        [("A", []), ("B", [])] "A" "B" "Similarity_Score").2 = [] ∧
    Rectangular (process_excel_file (fun _ _ => Except.error "boom")
        [("A", []), ("B", [])] "A" "B" "Similarity_Score").1 0 :=
  process_excel_file_empty (fun _ _ => Except.error "boom")
    [("A", []), ("B", [])] "A" "B" [] [] (by decide) (by decide)
    (by simp [Rectangular])

theorem twoDigits_length (k : Nat) (h : k < 100) : (twoDigits k).length = 2 := by
  revert h
  revert k
  decide

theorem format2pct_shape (q : ℚ) :
    ∃ ip fr, format2pct q = ip ++ "." ++ fr ++ "%" ∧ fr.length = 2 := by
  refine ⟨(if rhe (q * 10000) < 0 then "-" else "")
      ++ toString ((rhe (q * 10000)).natAbs / 100),
    twoDigits ((rhe (q * 10000)).natAbs % 100), ?_, ?_⟩
  · rw [format2pct]
  · exact twoDigits_length _ (Nat.mod_lt _ (by norm_num))

/-- C7: for every non-empty score list, `get_summary_stats` returns the four
metrics average, median, min, max (in that order, under the code's labels),
each value a percentage with exactly two fractional digits; and in particular
`get_summary_stats [1.0, 0.5, 0.0]` is
`{average: "50.00%", median: "50.00%", min: "0.00%", max: "100.00%"}`. -/
theorem get_summary_stats_spec :
    (∀ scores : List ℚ, scores ≠ [] →
      (get_summary_stats scores).map Prod.fst
          = ["Average Similarity", "Median Similarity", "Min Similarity",
             "Max Similarity"] ∧
      ∀ kv ∈ get_summary_stats scores,
        ∃ ip fr, kv.2 = ip ++ "." ++ fr ++ "%" ∧ fr.length = 2) ∧
    get_summary_stats [1, 1/2, 0]
      = [("Average Similarity", "50.00%"), ("Median Similarity", "50.00%"),
         ("Min Similarity", "0.00%"), ("Max Similarity", "100.00%")] := by
  constructor
  · intro scores _
    constructor
    · rfl
    · intro kv hkv
      simp only [get_summary_stats, List.mem_cons, List.not_mem_nil,
        or_false] at hkv
      rcases hkv with h | h | h | h <;> (rw [h]; exact format2pct_shape _)
  · have h50 : format2pct (1/2) = "50.00%" := by
      have h : rhe ((1/2 : ℚ) * 10000) = 5000 := by norm_num [rhe]
      rw [format2pct, h]
      decide
    have h0 : format2pct 0 = "0.00%" := by
      have h : rhe ((0 : ℚ) * 10000) = 0 := by norm_num [rhe]
      rw [format2pct, h]
      decide
    have h100 : format2pct 1 = "100.00%" := by
      have h : rhe ((1 : ℚ) * 10000) = 10000 := by norm_num [rhe]
      rw [format2pct, h]
      decide
    have hmean : npMean [1, 1/2, 0] = 1/2 := by norm_num [npMean]
    have hmed : npMedian [1, 1/2, 0] = 1/2 := by
      norm_num [npMedian, sortQ, insertSorted]
    have hmin : npMin [1, 1/2, 0] = 0 := by norm_num [npMin]
    have hmax : npMax [1, 1/2, 0] = 1 := by norm_num [npMax]
    rw [get_summary_stats, hmean, hmed, hmin, hmax, h50, h0, h100]

/-- Witness for C7 at the concrete one-element score list `[1/4]`. -/
theorem get_summary_stats_spec_witness :
    (get_summary_stats [1/4]).map Prod.fst
        = ["Average Similarity", "Median Similarity", "Min Similarity",
           "Max Similarity"] ∧
    ∀ kv ∈ get_summary_stats [1/4],
      ∃ ip fr, kv.2 = ip ++ "." ++ fr ++ "%" ∧ fr.length = 2 :=
  get_summary_stats_spec.1 [1/4] (by simp)

/-- C8: `validate_file_upload` accepts exactly the present files whose name
ends in `.xlsx` or `.xls` — equivalently, it rejects exactly when no file is
provided or the extension is not in the accepted set — and every rejection
carries a non-empty human-readable reason. -/
theorem validate_file_upload_spec (u : Option UploadedFile) :
    ((validate_file_upload u).1 = true ↔
      ∃ f, u = some f ∧
        (pyEndsWith f.name ".xlsx" || pyEndsWith f.name ".xls") = true) ∧
    ((validate_file_upload u).1 = false → (validate_file_upload u).2 ≠ "") := by
  cases u with
  | none =>
    constructor
    · simp [validate_file_upload]
    · intro _
      simp [validate_file_upload]
  | some f =>
    by_cases h : (pyEndsWith f.name ".xlsx" || pyEndsWith f.name ".xls") = true
    · constructor
      · simp [validate_file_upload, h]
        simpa using h
      · simp [validate_file_upload, h]
    · constructor
      · simp only [Bool.not_eq_true] at h
        simp [validate_file_upload, h]
        simpa using h
      · intro _
        simp only [Bool.not_eq_true] at h
        simp [validate_file_upload, h]

/-- Witness for C8: a file named `"data.xls"` is accepted (discharging the
acceptance condition of the iff at a concrete input). -/
theorem validate_file_upload_spec_witness :
    (validate_file_upload (some ⟨"data.xls"⟩)).1 = true :=
  (validate_file_upload_spec (some ⟨"data.xls"⟩)).1.mpr
    ⟨⟨"data.xls"⟩, rfl, by decide⟩
